import Mathlib

/-!
Verification of the RUH product-safety analysis pipeline.

Shallow embedding of the backend's analysis pipeline:
* `src/backend/src/domain/harm_calculator.py` (`HarmScoreCalculator`)
* `src/backend/src/api/routes/analyze.py` (`analyze_product`, `get_review_insights`)
* `src/backend/src/infrastructure/product_scraper.py` (`ProductScraperService.try_scrape`)
* `src/backend/src/infrastructure/claude_agent.py` (`ProductSafetyAgent`)
* `src/backend/src/infrastructure/database.py` (`DatabaseService`)

Python floats are modelled as rationals (`ℚ`), Python ints as `ℤ`/`ℕ`.
Python dicts that the code accesses through `.get(key, default)` are modelled
as total records: a missing key behaves exactly like a present key holding the
default value, so the total-record model covers every dict the code can see.
Wall-clock timestamps (`analyzed_at`, cache age) are outside the model.
-/

namespace Ruh

/-- A detection record: one identified allergen, PFAS compound or other
concern.  `harm_calculator.py` reads `severity` (a raw string, defaulting to
8 points for anything outside the table) and `confidence`; the merge step in
`analyze.py` reads `name`. -/
structure Det where
  name : String
  severity : String
  confidence : ℚ
deriving DecidableEq

/-- The `analysis_data` dict flowing through `analyze_product`
(`analyze.py`): detection lists, product identity fields, the overall
confidence, and the optional `note` key set by the degrade branches. -/
structure AnalysisData where
  product_name : String
  brand : String
  retailer : String
  category : String
  ingredients : List String
  allergens_detected : List Det
  pfas_detected : List Det
  other_concerns : List Det
  confidence : ℚ
  note : Option String
deriving DecidableEq

/-- Lookup `HarmScoreCalculator.SEVERITY_POINTS.get(severity, 8)`
(harm_calculator.py lines 23-28, 64, 79): dict lookup with default 8. -/
def SEVERITY_POINTS (s : String) : ℚ :=
  if s = "low" then 8
  else if s = "moderate" then 18
  else if s = "high" then 35
  else if s = "severe" then 50
  else 8

/-- Python's `str.lower()`: lower-case the string character by character. -/
def strLower (s : String) : String :=
  String.mk (s.data.map Char.toLower)

/-- Python's `keyword in text` substring test on lowered text
(harm_calculator.py lines 119, 128). -/
def strContains (hay needle : String) : Bool :=
  decide (needle.data <:+: hay.data)

/-- Table `HarmScoreCalculator.CATEGORY_MULTIPLIERS` (harm_calculator.py lines
31-38), in Python dict insertion order (iteration order is significant). -/
def CATEGORY_MULTIPLIERS : List (String × ℚ) :=
  [("pesticide", 14/10), ("insecticide", 14/10), ("herbicide", 14/10),
   ("household_cleaner", 12/10), ("disinfectant", 12/10),
   ("chemical_product", 115/100)]

/-- The `high_risk_keywords` list (harm_calculator.py lines 123-126). -/
def HIGH_RISK_KEYWORDS : List String :=
  ["killer", "spray", "poison", "toxic", "bleach",
   "acid", "lye", "caustic", "corrosive"]

/-- The first loop of `_get_category_multiplier` (lines 118-120): walk
`CATEGORY_MULTIPLIERS` in order, returning the first multiplier whose keyword
occurs in the lowered product name or the lowered category. -/
def multiplierLoop (pl cl : String) : List (String × ℚ) → Option ℚ
  | [] => none
  | kv :: rest =>
      if strContains pl kv.1 || strContains cl kv.1 then some kv.2
      else multiplierLoop pl cl rest

/-- Function `HarmScoreCalculator._get_category_multiplier` (harm_calculator.py lines
104-131).  Note: the second loop tests the high-risk keywords against the
lowered product name only, never against the category. -/
def getCategoryMultiplier (product_name category : String) : ℚ :=
  let pl := strLower product_name
  let cl := strLower category
  match multiplierLoop pl cl CATEGORY_MULTIPLIERS with
  | some m => m
  | none =>
      if HIGH_RISK_KEYWORDS.any (fun k => strContains pl k) then 13/10 else 1

/-- Python `int()` applied to a float: truncation toward zero. -/
def pyInt (q : ℚ) : ℤ :=
  if q < 0 then -(Int.floor (-q)) else Int.floor q

/-- Points contributed by an allergen / other-concern list
(harm_calculator.py lines 61-66 and 76-81): severity points times the
detection's own confidence, summed. -/
def detPoints (l : List Det) : ℚ :=
  (l.map (fun d => SEVERITY_POINTS d.severity * d.confidence)).sum

/-- Points contributed by the PFAS list (harm_calculator.py lines 69-73):
fixed base 40 times the detection's own confidence, summed. -/
def pfasPoints (l : List Det) : ℚ :=
  (l.map (fun d => 40 * d.confidence)).sum

/-- The summed `base_score` before the multiplier (lines 58-81). -/
def baseScore (a : AnalysisData) : ℚ :=
  detPoints a.allergens_detected + pfasPoints a.pfas_detected
    + detPoints a.other_concerns

/-- Step `base_score *= category_multiplier` (lines 83-88). -/
def afterMultiplier (a : AnalysisData) : ℚ :=
  baseScore a * getCategoryMultiplier a.product_name a.category

/-- The low-confidence caution bonus (lines 90-95). -/
def afterConfidence (a : AnalysisData) : ℚ :=
  if a.confidence < 7/10 then
    afterMultiplier a + (7/10 - a.confidence) * 20
  else afterMultiplier a

/-- Python truthiness of `allergens or pfas_compounds or toxins`
(line 98): at least one detection list is non-empty. -/
def hasDetections (a : AnalysisData) : Bool :=
  !a.allergens_detected.isEmpty || !a.pfas_detected.isEmpty
    || !a.other_concerns.isEmpty

/-- The minimum-score floor (lines 97-99). -/
def afterFloor (a : AnalysisData) : ℚ :=
  if hasDetections a = true ∧ afterConfidence a < 25 then 25
  else afterConfidence a

/-- Function `HarmScoreCalculator.calculate` (harm_calculator.py lines 40-102):
`final_score = min(100, int(base_score))`. -/
def calculate (a : AnalysisData) : ℤ :=
  min 100 (pyInt (afterFloor a))

/-- Function `HarmScoreCalculator.get_risk_level` (harm_calculator.py lines 133-150). -/
def getRiskLevel (harm_score : ℤ) : String :=
  if harm_score ≤ 30 then "Safe"
  else if harm_score ≤ 60 then "Moderate Risk"
  else if harm_score ≤ 80 then "High Risk"
  else "Dangerous"

/-- Transcription of claim C7's description of `_get_category_multiplier`:
BOTH the product name and the category are scanned, case-insensitively,
against every keyword group — including the generic danger words
(`"bleach"`, `"poison"`, ...).  To be compared with `getCategoryMultiplier`,
which scans the danger words against the product name only. -/
def claimedCategoryMultiplier (product_name category : String) : ℚ :=
  let pl := strLower product_name
  let cl := strLower category
  match multiplierLoop pl cl CATEGORY_MULTIPLIERS with
  | some m => m
  | none =>
      if HIGH_RISK_KEYWORDS.any (fun k => strContains pl k || strContains cl k)
      then 13/10 else 1

/-- A row of the amended risk-keyword table: keyword, multiplier, and whether
the keyword is also scanned against the category field. -/
structure KeywordRule where
  keyword : String
  multiplier : ℚ
  scanCategory : Bool

/-- The amended risk-keyword table: the `CATEGORY_MULTIPLIERS` keywords are
scanned against both fields; the generic danger words (all at 1.3) are
scanned against the product name only. -/
def riskKeywordTable : List KeywordRule :=
  CATEGORY_MULTIPLIERS.map (fun kv => ⟨kv.1, kv.2, true⟩)
    ++ HIGH_RISK_KEYWORDS.map (fun k => ⟨k, 13/10, false⟩)

/-- First-match-wins scan of a keyword table. -/
def firstMatchMultiplier (pl cl : String) : List KeywordRule → ℚ
  | [] => 1
  | r :: rest =>
      if strContains pl r.keyword || (r.scanCategory && strContains cl r.keyword)
      then r.multiplier
      else firstMatchMultiplier pl cl rest

/-- The amended multiplier specification: one ordered scan of
`riskKeywordTable`, first match wins, 1.0 when nothing matches. -/
def amendedCategoryMultiplier (product_name category : String) : ℚ :=
  firstMatchMultiplier (strLower product_name) (strLower category) riskKeywordTable

/-- The merge loop of `analyze_product` (analyze.py lines 182-194), for one
detection category: the set of AI-reported names is computed first
(`ai_allergen_names`), then every database match whose name is not in that
set is appended to the AI list.  Python set membership on strings is exact
and case-sensitive. -/
def mergeDetections (ai db : List Det) : List Det :=
  let aiNames := ai.map Det.name
  db.foldl (fun acc d => if aiNames.contains d.name then acc else acc ++ [d]) ai

/-- Transcription of claim C3's reading of the merge: the database match is
skipped when its name is already present among the AI detections compared
CASE-INSENSITIVELY.  To be compared with `mergeDetections`. -/
def mergeDetectionsCI (ai db : List Det) : List Det :=
  let aiNames := ai.map (fun a => strLower a.name)
  db.foldl
    (fun acc d => if aiNames.contains (strLower d.name) then acc else acc ++ [d]) ai

/-- A scraped page (`ScrapedProduct`, consumed by analyze.py and
product_scraper.py): the pipeline reads `confidence` and, for the reviews
endpoint, `has_reviews`.  Text payload fields are carried opaquely. -/
structure ScrapedProduct where
  url : String
  retailer : String
  product_section_text : String
  review_section_text : String
  confidence : ℚ
  has_reviews : Bool
deriving DecidableEq

/-- Method `ProductScraperService.try_scrape` (product_scraper.py lines 24-60):
`None` when no site-specific scraper exists for the URL, `None` when the
scrape's confidence is `< 0.3`, otherwise the scraped result. -/
def tryScrape (scraperAvailable : Bool) (result : ScrapedProduct) :
    Option ScrapedProduct :=
  if scraperAvailable = false then none
  else if result.confidence < 3/10 then none
  else some result

/-- The branch condition of analyze.py line 132:
`scraped_html is not None and scraped_html.confidence > 0.3`. -/
def takesSuccessPath (scraped : Option ScrapedProduct) : Bool :=
  match scraped with
  | none => false
  | some s => decide (3/10 < s.confidence)

/-- The `product_data` dict produced by `ClaudeQueryService.extract_product_data`
(claude_query.py), as read by analyze.py (keys `product_name`, `brand`,
`ingredients`, `materials`, `confidence`). -/
structure ExtractedData where
  product_name : String
  brand : String
  ingredients : List String
  materials : List String
  confidence : ℚ
deriving DecidableEq

/-- Outcome of one Anthropic API call made by `ProductSafetyAgent`
(claude_agent.py): a `RateLimitError`, any other exception (`APIError`
etc., carrying its message), or a parsed analysis payload. -/
inductive CallResult where
  | rateLimited
  | apiError (msg : String)
  | ok (payload : AnalysisData)
deriving DecidableEq

/-- A raised `fastapi.HTTPException` (status code and detail). -/
structure HTTPExc where
  status : ℕ
  detail : String
deriving DecidableEq

/-- A Python exception escaping the route body: an `HTTPException` or any
other exception rendered by its message. -/
inductive PyExc where
  | http (e : HTTPExc)
  | other (msg : String)
deriving DecidableEq

/-- The note set on rate-limit degradation (analyze.py line 205). -/
def rateLimitNote : String := "Rate limit reached - showing database matches only"

/-- The note set on any other enrichment failure (analyze.py line 214). -/
def aiUnavailableNote : String := "AI analysis unavailable - showing database matches only"

/-- The 429 raised when the fallback web_fetch call is rate limited
(analyze.py lines 152-156 and 227-231). -/
def rateLimit429 : HTTPExc :=
  { status := 429, detail := "Rate limit exceeded. Please try again later." }

/-- The degrade-to-database-only assembly (analyze.py lines 201-205 and
210-214): keep the matcher output `basic` as `analysis_data`, overwrite the
identity fields from `product_data`, and set the `note` key. -/
def degradeData (basic : AnalysisData) (pd : ExtractedData) (noteMsg : String) :
    AnalysisData :=
  { basic with
    product_name := pd.product_name
    brand := pd.brand
    ingredients := pd.ingredients
    note := some noteMsg }

/-- The merge step (analyze.py lines 179-196): the AI payload is kept as the
primary record and database-only finds are appended per list. -/
def mergeStep (ai basic : AnalysisData) : AnalysisData :=
  { ai with
    allergens_detected := mergeDetections ai.allergens_detected basic.allergens_detected
    pfas_detected := mergeDetections ai.pfas_detected basic.pfas_detected }

/-- The fallback path (analyze.py lines 216-231, also reached at lines
142-156): a single `agent.analyze_product` web_fetch call, `fo n` being the
outcome the Anthropic API would return to the n-th call the route makes.
The code calls it once (claude_agent.py lines 74-93 contain no retry loop):
only `fo 0` is ever consulted.  A `RateLimitError` becomes an
`HTTPException(429)`; any other exception propagates. -/
def fallbackAnalysisData (fo : ℕ → CallResult) : Except PyExc AnalysisData :=
  match fo 0 with
  | .rateLimited => .error (.http rateLimit429)
  | .apiError m => .error (.other m)
  | .ok a => .ok a

/-- The success path after a usable scrape (analyze.py lines 133-214):
if extraction confidence is `< 0.3`, fall back to the combined
fetch+enrich call; otherwise make a single `agent.analyze_extracted_product`
call (claude_agent.py lines 315-386 contain no retry loop, so only `eo 0`
is consulted) and merge, degrade on `RateLimitError`, degrade with a
different note on any other exception. -/
def successAnalysisData (pd : ExtractedData) (basic : AnalysisData)
    (eo fo : ℕ → CallResult) : Except PyExc AnalysisData :=
  if pd.confidence < 3/10 then fallbackAnalysisData fo
  else
    match eo 0 with
    | .ok ai => .ok (mergeStep ai basic)
    | .rateLimited => .ok (degradeData basic pd rateLimitNote)
    | .apiError _ => .ok (degradeData basic pd aiUnavailableNote)

/-- The fresh-analysis branch of `analyze_product` (analyze.py lines
129-231): route on line 132's condition. -/
def analyzeFreshData (scraped : Option ScrapedProduct) (pd : ExtractedData)
    (basic : AnalysisData) (eo fo : ℕ → CallResult) : Except PyExc AnalysisData :=
  if takesSuccessPath scraped = true then successAnalysisData pd basic eo fo
  else fallbackAnalysisData fo

/-- The `ProductAnalysis` response model as constructed by analyze.py lines
237-249 (and 78-90).  `domain/models.py` is not part of the analyzed
sources; the field set is modelled from the constructor call in analyze.py
and §3 of the spec (`AnalysisResult`), neither of which has a note field.
`analyzed_at` (wall clock) is outside the model. -/
structure ProductAnalysis where
  product_url : String
  product_name : String
  brand : String
  retailer : String
  ingredients : List String
  overall_score : ℤ
  allergens_detected : List Det
  pfas_detected : List Det
  other_concerns : List Det
  confidence : ℚ
deriving DecidableEq

/-- Building the response model from `analysis_data` (analyze.py lines
233-249): `overall_score = 100 - harm_score`.  The `note` key of
`analysis_data` is not among the constructor arguments. -/
def buildAnalysis (url : String) (a : AnalysisData) : ProductAnalysis :=
  { product_url := url, product_name := a.product_name, brand := a.brand,
    retailer := a.retailer, ingredients := a.ingredients,
    overall_score := 100 - calculate a,
    allergens_detected := a.allergens_detected,
    pfas_detected := a.pfas_detected,
    other_concerns := a.other_concerns,
    confidence := a.confidence }

/-- What the HTTP boundary returns for one request. -/
inductive RouteOutcome where
  | ok (analysis : ProductAnalysis)
  | httpError (status : ℕ) (detail : String)
deriving DecidableEq

/-- The fresh-analysis part of `analyze_product` end to end, including the
outer `except Exception` (analyze.py lines 307-312), which catches even the
route's own `HTTPException`s (there is no `except HTTPException: raise`
clause in this handler) and re-wraps them as
`500 "Analysis failed: {str(e)}"`; `str` of a starlette `HTTPException` is
`"{status_code}: {detail}"`. -/
def analyzeFresh (url : String) (scraped : Option ScrapedProduct)
    (pd : ExtractedData) (basic : AnalysisData) (eo fo : ℕ → CallResult) :
    RouteOutcome :=
  match analyzeFreshData scraped pd basic eo fo with
  | .ok a => .ok (buildAnalysis url a)
  | .error (.http e) =>
      .httpError 500 ("Analysis failed: " ++ toString e.status ++ ": " ++ e.detail)
  | .error (.other m) => .httpError 500 ("Analysis failed: " ++ m)

/-- Transcription of claim C2's retry policy: retry the external call up to
3 times after the first attempt, returning the first non-rate-limited
outcome.  To be compared with the single-attempt behavior of the code. -/
def retryUpTo3 (o : ℕ → CallResult) : CallResult :=
  match o 0 with
  | .rateLimited =>
      match o 1 with
      | .rateLimited =>
          match o 2 with
          | .rateLimited => o 3
          | r => r
      | r => r
  | r => r

/-- Concrete enricher-call oracle for the C2 counterexample: the first call
is rate limited, every later call would succeed. -/
def c2oracle : ℕ → CallResult :=
  fun n => if n = 0 then .rateLimited else
    .ok { product_name := "AI Product", brand := "AI Brand", retailer := "",
          category := "", ingredients := [],
          allergens_detected := [{ name := "nickel", severity := "high", confidence := 1 }],
          pfas_detected := [], other_concerns := [], confidence := 1, note := none }

/-- The extracted product data used by the C2/C4 concrete runs. -/
def c2extracted : ExtractedData :=
  { product_name := "Pan", brand := "Acme", ingredients := ["PTFE"],
    materials := [], confidence := 1 }

/-- The matcher output used by the C2/C4 concrete runs. -/
def c2basic : AnalysisData :=
  { product_name := "", brand := "", retailer := "", category := "",
    ingredients := [],
    allergens_detected := [],
    pfas_detected := [{ name := "PTFE", severity := "", confidence := 1 }],
    other_concerns := [], confidence := 1, note := none }

/-- The `product_analyses` row written by `DatabaseService.store_analysis`
(database.py lines 147-161).  There is NO `overall_score`, `retailer`,
`ingredients`, `confidence`, `allergens_detected` or `pfas_detected`
column — detections are stored under `allergens` / `pfas_compounds`.
The text columns not read back by analyze.py (`overall_safety_summary`,
`alternatives_summary`, `raw_analysis`) and `analyzed_at` are outside the
model. -/
structure StoredRecord where
  product_url_hash : String
  product_url : String
  product_name : String
  brand : String
  category : String
  harm_score : ℤ
  allergens : List Det
  pfas_compounds : List Det
  other_concerns : List Det
deriving DecidableEq

/-- Storing an analysis: the route packs the response model into the
`analysis_response` dict (analyze.py lines 256-269, with
`category := retailer`), and `store_analysis` computes
`harm_score = 100 - overall_score` (database.py line 144). -/
def storeAnalysis (urlHash productUrl : String) (pa : ProductAnalysis) :
    StoredRecord :=
  { product_url_hash := urlHash
    product_url := productUrl
    product_name := pa.product_name
    brand := pa.brand
    category := pa.retailer
    harm_score := 100 - pa.overall_score
    allergens := pa.allergens_detected
    pfas_compounds := pa.pfas_detected
    other_concerns := pa.other_concerns }

/-- Rebuilding a `ProductAnalysis` from a cached row (analyze.py lines
78-90).  Every `.get` whose key is not a column of the row yields its
default: `overall_score` → `100 - harm_score` (line 84), `retailer` →
`category` (line 82), `ingredients`, `allergens_detected`,
`pfas_detected` → `[]`, `confidence` → `80 / 100.0` (line 88). -/
def rebuildFromCache (r : StoredRecord) : ProductAnalysis :=
  { product_url := r.product_url
    product_name := r.product_name
    brand := r.brand
    retailer := r.category
    ingredients := []
    overall_score := 100 - r.harm_score
    allergens_detected := []
    pfas_detected := []
    other_concerns := r.other_concerns
    confidence := 80/100 }

/-- The `review_data` dict returned by
`ClaudeQueryService.extract_review_insights` (claude_query.py), as read by
analyze.py lines 388-406. -/
structure ReviewExtraction where
  overall_sentiment : String
  total_reviews_analyzed : ℕ
  common_complaints : List String
  health_concerns : List String
  positive_feedback : List String
  questions_concerns : List String
  verified_purchase_ratio : ℚ
  confidence : ℚ
deriving DecidableEq

/-- The `ReviewInsights` response model as constructed by analyze.py lines
395-408 (`domain/models.py` is not among the analyzed sources; fields per
the constructor call and §3 of the spec).  `analyzed_at` and the
`rating_distribution` map are outside the model. -/
structure ReviewInsights where
  url_hash : String
  product_url : String
  overall_sentiment : String
  total_reviews_analyzed : ℕ
  common_complaints : List String
  health_concerns : List String
  positive_feedback : List String
  questions_concerns : List String
  verified_purchase_ratio : ℚ
  confidence : ℚ
deriving DecidableEq

/-- Building the response (analyze.py lines 395-408). -/
def buildInsights (urlHash productUrl : String) (rd : ReviewExtraction) :
    ReviewInsights :=
  { url_hash := urlHash
    product_url := productUrl
    overall_sentiment := rd.overall_sentiment
    total_reviews_analyzed := rd.total_reviews_analyzed
    common_complaints := rd.common_complaints
    health_concerns := rd.health_concerns
    positive_feedback := rd.positive_feedback
    questions_concerns := rd.questions_concerns
    verified_purchase_ratio := ReviewExtraction.verified_purchase_ratio rd
    confidence := rd.confidence }

/-- Outcome of the review-insights endpoint. -/
inductive ReviewOutcome where
  | ok (insights : ReviewInsights)
  | httpError (status : ℕ) (detail : String)
deriving DecidableEq

/-- Endpoint `get_review_insights` (analyze.py lines 315-429).  Inputs model the
collaborators: `cachedReviews` is the `db.get_cached_reviews` call outcome
(an exception there is logged and ignored, lines 345-346); `cachedAnalysis`
is the `db.get_cached_analysis` result (that method catches its own
errors and returns `None`, database.py lines 103-117); `scraped` is the
reviews scrape; `reviewData` the extraction output.  The trailing
`except HTTPException: raise` (line 422) lets the 503/404 statuses surface
unchanged. -/
def getReviewInsights (urlHash : String) (forceRefresh dbAvailable : Bool)
    (cachedReviews : Except String (Option ReviewInsights))
    (cachedAnalysis : Option StoredRecord)
    (scraped : Option ScrapedProduct)
    (reviewData : ReviewExtraction) : ReviewOutcome :=
  -- Steps 2-5 (lines 348-408), shared by the cache-miss and cache-skip paths.
  let afterCache : ReviewOutcome :=
    if dbAvailable = true then
      match cachedAnalysis with
      | none => .httpError 404 "Product not found. Analyze the product first."
      | some rec =>
          match scraped with
          | none => .httpError 404 "No reviews available for this product"
          | some s =>
              if s.has_reviews = false then
                .httpError 404 "No reviews available for this product"
              else if reviewData.confidence < 3/10 then
                .httpError 500 "Failed to extract review insights"
              else .ok (buildInsights urlHash rec.product_url reviewData)
    else .httpError 503 "Database unavailable. Cannot fetch reviews without URL."
  -- Step 1 (lines 339-346): the reviews cache is consulted only when
  -- `not force_refresh and db.is_available`.
  if forceRefresh = false ∧ dbAvailable = true then
    match cachedReviews with
    | .ok (some r) => .ok r
    | _ => afterCache
  else afterCache

/-! Theorems about the embedded pipeline. -/

lemma pyInt_nonneg {q : ℚ} (h : 0 ≤ q) : 0 ≤ pyInt q := by
  unfold pyInt
  rw [if_neg (by linarith)]
  exact Int.floor_nonneg.mpr h

lemma le_pyInt {q : ℚ} (h : 25 ≤ q) : 25 ≤ pyInt q := by
  unfold pyInt
  rw [if_neg (by linarith)]
  exact Int.le_floor.mpr (by exact_mod_cast h)

lemma baseScore_eq_zero_of_no_detections {a : AnalysisData}
    (h : hasDetections a = false) : baseScore a = 0 := by
  unfold hasDetections at h
  simp only [Bool.or_eq_false_iff, Bool.not_eq_false'] at h
  obtain ⟨⟨h1, h2⟩, h3⟩ := h
  rw [List.isEmpty_iff] at h1 h2 h3
  simp [baseScore, detPoints, pfasPoints, h1, h2, h3]

lemma afterConfidence_nonneg_of_no_detections {a : AnalysisData}
    (h : hasDetections a = false) : 0 ≤ afterConfidence a := by
  have hbase : afterMultiplier a = 0 := by
    simp [afterMultiplier, baseScore_eq_zero_of_no_detections h]
  unfold afterConfidence
  split
  · next hc => nlinarith
  · simp [hbase]

lemma afterFloor_nonneg (a : AnalysisData) : 0 ≤ afterFloor a := by
  unfold afterFloor
  split
  · norm_num
  · next h =>
    rcases Bool.eq_false_or_eq_true (hasDetections a) with hd | hd
    · have := not_and.mp h hd
      linarith [not_lt.mp this]
    · exact afterConfidence_nonneg_of_no_detections hd

/-- C1: for every input to `HarmScoreCalculator.calculate` — any detection
lists, any confidence values, any product name and category — the returned
score satisfies `0 ≤ calculate a ≤ 100`.  The upper bound comes from the
explicit `min(100, ...)`; the lower bound is emergent (there is no `max(0, ...)`
in the code): with no detections the base score is a sum of zero terms plus a
non-negative caution bonus, and with any detection the 25-point floor applies. -/
theorem calculate_bounds (a : AnalysisData) :
    0 ≤ calculate a ∧ calculate a ≤ 100 := by
  constructor
  · exact le_min (by norm_num) (pyInt_nonneg (afterFloor_nonneg a))
  · exact min_le_left _ _

lemma afterFloor_ge_25 {a : AnalysisData} (h : hasDetections a = true) :
    25 ≤ afterFloor a := by
  unfold afterFloor
  split
  · norm_num
  · next hneg =>
    have := not_and.mp hneg h
    linarith [not_lt.mp this]

/-- C6: if at least one detection (allergen, PFAS or other concern) is present,
`HarmScoreCalculator.calculate` returns at least 25, for every combination of
severities, confidences, category multiplier and confidence penalty
(harm_calculator.py lines 97-99). -/
theorem calculate_min_floor (a : AnalysisData) (h : hasDetections a = true) :
    25 ≤ calculate a :=
  le_min (by norm_num) (le_pyInt (afterFloor_ge_25 h))

/-- Witness for C6 at a concrete input: a single severe allergen detection. -/
theorem calculate_min_floor_witness :
    hasDetections
        { product_name := "", brand := "", retailer := "", category := "",
          ingredients := [],
          allergens_detected := [{ name := "lead", severity := "severe", confidence := 1 }],
          pfas_detected := [], other_concerns := [], confidence := 1,
          note := none } = true ∧
      25 ≤ calculate
        { product_name := "", brand := "", retailer := "", category := "",
          ingredients := [],
          allergens_detected := [{ name := "lead", severity := "severe", confidence := 1 }],
          pfas_detected := [], other_concerns := [], confidence := 1,
          note := none } :=
  ⟨by decide, calculate_min_floor _ (by decide)⟩

/-- Counterexample to C7 as stated: for a product whose category is
`"bleach"` but whose name contains no keyword, the code applies
multiplier 1.0, while the claimed scan of both fields for generic danger
words would apply 1.3. -/
theorem category_multiplier_counterexample :
    getCategoryMultiplier "" "bleach" = 1 ∧
      claimedCategoryMultiplier "" "bleach" = 13/10 := by
  exact ⟨rfl, rfl⟩

lemma firstMatchMultiplier_pair_append (pl cl : String)
    (l : List (String × ℚ)) (rest : List KeywordRule) :
    firstMatchMultiplier pl cl (l.map (fun kv => ⟨kv.1, kv.2, true⟩) ++ rest) =
      match multiplierLoop pl cl l with
      | some m => m
      | none => firstMatchMultiplier pl cl rest := by
  induction l with
  | nil => simp [multiplierLoop]
  | cons kv l ih =>
    simp only [List.map_cons, List.cons_append, firstMatchMultiplier,
      multiplierLoop, Bool.true_and]
    split <;> simp_all

lemma firstMatchMultiplier_danger (pl cl : String) (l : List String) :
    firstMatchMultiplier pl cl (l.map (fun k => ⟨k, 13/10, false⟩)) =
      if l.any (fun k => strContains pl k) then 13/10 else 1 := by
  induction l with
  | nil => simp [firstMatchMultiplier]
  | cons k l ih =>
    simp only [List.map_cons, firstMatchMultiplier, List.any_cons,
      Bool.false_and, Bool.or_false]
    rcases Bool.eq_false_or_eq_true (strContains pl k) with h | h <;>
      simp [h, ih]

/-- C7 amended: the multiplier is the first-match-wins scan of the ordered
risk-keyword table, where the `CATEGORY_MULTIPLIERS` keywords (pesticide
class ×1.4, cleaner/disinfectant class ×1.2, chemical_product ×1.15) are
matched case-insensitively against the product name and the category, the
generic danger words (×1.3) are matched against the product name only, and
×1.0 applies when no keyword matches. -/
theorem category_multiplier_spec (product_name category : String) :
    getCategoryMultiplier product_name category =
      amendedCategoryMultiplier product_name category := by
  unfold getCategoryMultiplier amendedCategoryMultiplier riskKeywordTable
  rw [firstMatchMultiplier_pair_append, firstMatchMultiplier_danger]

/-- Counterexample to C3 as stated: the AI list holds `"Fragrance"`, the
database list holds `"fragrance"`.  Case-insensitively the name is already
present, so the claim says it must not be appended; the code compares
case-sensitively and appends it, double-counting the substance. -/
theorem merge_counterexample :
    mergeDetections [{ name := "Fragrance", severity := "low", confidence := 1 }]
        [{ name := "fragrance", severity := "low", confidence := 1 }] ≠
      mergeDetectionsCI [{ name := "Fragrance", severity := "low", confidence := 1 }]
        [{ name := "fragrance", severity := "low", confidence := 1 }] ∧
      (mergeDetections [{ name := "Fragrance", severity := "low", confidence := 1 }]
        [{ name := "fragrance", severity := "low", confidence := 1 }]).length = 2 := by
  exact ⟨by decide, by decide⟩

lemma merge_foldl (names : List String) (db acc : List Det) :
    db.foldl (fun acc d => if names.contains d.name then acc else acc ++ [d]) acc =
      acc ++ db.filter (fun d => !names.contains d.name) := by
  induction db generalizing acc with
  | nil => simp
  | cons d rest ih =>
    simp only [List.foldl_cons, List.filter_cons]
    rcases Bool.eq_false_or_eq_true (names.contains d.name) with h | h
    · rw [if_pos h, ih, h]
      simp
    · rw [if_neg (by rw [h]; simp), ih, h]
      simp

/-- C3 amended: a database-matched detection is appended iff its name,
compared CASE-SENSITIVELY for exact equality, is not among the AI detection
names; the AI detections are kept unchanged as the prefix of the merged
list, and merging a list with itself adds nothing. -/
theorem merge_spec (ai db : List Det) :
    mergeDetections ai db =
        ai ++ db.filter (fun d => !(ai.map Det.name).contains d.name) ∧
      mergeDetections ai ai = ai := by
  constructor
  · exact merge_foldl _ _ _
  · rw [mergeDetections, merge_foldl]
    have h : ai.filter (fun d => !(ai.map Det.name).contains d.name) = [] := by
      rw [List.filter_eq_nil_iff]
      intro d hd
      have hmem : d.name ∈ ai.map Det.name := List.mem_map_of_mem _ hd
      simp [hmem]
    rw [h, List.append_nil]

/-- C8: one low-severity allergen detection at confidence 1.0 plus one PFAS
detection at confidence 1.0, with a product name/category matching no
multiplier keyword and overall confidence at least 0.7, scores exactly
`8*1.0 + 40*1.0 = 48`. -/
theorem calculate_concrete_example
    (pn cat aName pName pSev : String) (conf : ℚ)
    (hmult : getCategoryMultiplier pn cat = 1) (hconf : 7/10 ≤ conf) :
    calculate
      { product_name := pn, brand := "", retailer := "", category := cat,
        ingredients := [],
        allergens_detected := [{ name := aName, severity := "low", confidence := 1 }],
        pfas_detected := [{ name := pName, severity := pSev, confidence := 1 }],
        other_concerns := [], confidence := conf, note := none } = 48 := by
  have h1 : baseScore
      { product_name := pn, brand := "", retailer := "", category := cat,
        ingredients := [],
        allergens_detected := [{ name := aName, severity := "low", confidence := 1 }],
        pfas_detected := [{ name := pName, severity := pSev, confidence := 1 }],
        other_concerns := [], confidence := conf, note := none } = 48 := by
    simp [baseScore, detPoints, pfasPoints, SEVERITY_POINTS]
    norm_num
  rw [calculate, afterFloor, afterConfidence, afterMultiplier, h1, hmult]
  rw [if_neg (not_lt.mpr hconf)]
  norm_num [hasDetections, pyInt]

/-- Witness for C8 at concrete inputs (empty name/category, confidence 1). -/
theorem calculate_concrete_example_witness :
    getCategoryMultiplier "" "" = 1 ∧ (7:ℚ)/10 ≤ 1 ∧
      calculate
        { product_name := "", brand := "", retailer := "", category := "",
          ingredients := [],
          allergens_detected := [{ name := "fragrance", severity := "low", confidence := 1 }],
          pfas_detected := [{ name := "PTFE", severity := "", confidence := 1 }],
          other_concerns := [], confidence := 1, note := none } = 48 :=
  ⟨rfl, by norm_num,
    calculate_concrete_example "" "" "fragrance" "PTFE" "" 1 rfl (by norm_num)⟩

/-- Counterexample to C5 as stated: a scrape with confidence exactly 0.3.
`try_scrape` passes it through (its test is `confidence < 0.3`), but the
route's branch condition `confidence > 0.3` (analyze.py line 132) rejects
it, so the pipeline takes the fallback path even though
`confidence ≥ 0.3`. -/
theorem scrape_acceptance_counterexample :
    tryScrape true
        { url := "u", retailer := "r", product_section_text := "p",
          review_section_text := "v", confidence := 3/10, has_reviews := false } =
      some
        { url := "u", retailer := "r", product_section_text := "p",
          review_section_text := "v", confidence := 3/10, has_reviews := false } ∧
      takesSuccessPath
        (tryScrape true
          { url := "u", retailer := "r", product_section_text := "p",
            review_section_text := "v", confidence := 3/10, has_reviews := false }) =
        false ∧
      (3:ℚ)/10 ≤
        ({ url := "u", retailer := "r", product_section_text := "p",
           review_section_text := "v", confidence := 3/10,
           has_reviews := false } : ScrapedProduct).confidence := by
  refine ⟨?_, ?_, by norm_num⟩
  · rw [tryScrape]
    norm_num
  · rw [tryScrape]
    norm_num [takesSuccessPath]

/-- C5 amended: the two-stage (success) path is taken iff a site scraper
exists and the scrape confidence is STRICTLY greater than 0.3; in every
other case — no scraper, confidence below 0.3 (dropped by `try_scrape`),
or confidence exactly 0.3 (passed through by `try_scrape` but rejected by
the route's strict `> 0.3` check) — the pipeline runs the single combined
fetch+enrich fallback call instead of failing the request. -/
theorem scrape_acceptance (avail : Bool) (r : ScrapedProduct)
    (pd : ExtractedData) (basic : AnalysisData) (eo fo : ℕ → CallResult) :
    takesSuccessPath (tryScrape avail r) = (avail && decide (3/10 < r.confidence)) ∧
      analyzeFreshData (tryScrape avail r) pd basic eo fo =
        (if avail = true ∧ 3/10 < r.confidence
         then successAnalysisData pd basic eo fo
         else fallbackAnalysisData fo) := by
  have key : takesSuccessPath (tryScrape avail r) =
      (avail && decide (3/10 < r.confidence)) := by
    cases avail
    · simp [tryScrape, takesSuccessPath]
    · rw [tryScrape, if_neg (by simp)]
      by_cases hc : r.confidence < 3/10
      · rw [if_pos hc]
        simp [takesSuccessPath, asymm hc]
      · rw [if_neg hc]
        simp [takesSuccessPath]
  refine ⟨key, ?_⟩
  rw [analyzeFreshData, key]
  by_cases h : avail = true ∧ 3/10 < r.confidence
  · rw [if_pos (by simp [h.1, h.2]), if_pos h]
  · rw [if_neg (by simpa [Bool.and_eq_true, decide_eq_true_eq] using h), if_neg h]

/-- Counterexample to C2 as stated: under the claimed retry policy a second
attempt would succeed (`retryUpTo3` returns the success payload), but the
code consults only the first call outcome and immediately degrades to the
database-only result with the rate-limit note — no retry happens. -/
theorem enrichment_no_retry_counterexample :
    retryUpTo3 c2oracle =
        CallResult.ok
          { product_name := "AI Product", brand := "AI Brand", retailer := "",
            category := "", ingredients := [],
            allergens_detected := [{ name := "nickel", severity := "high", confidence := 1 }],
            pfas_detected := [], other_concerns := [], confidence := 1, note := none } ∧
      successAnalysisData c2extracted c2basic c2oracle c2oracle =
        Except.ok (degradeData c2basic c2extracted rateLimitNote) ∧
      (degradeData c2basic c2extracted rateLimitNote).note = some rateLimitNote := by
  refine ⟨rfl, ?_, rfl⟩
  rw [successAnalysisData, if_neg (by norm_num [c2extracted])]
  rfl

/-- C2 amended: there is no retry and no backoff.  The enrichment and
fallback external calls are attempted exactly once — the result depends
only on the first call outcome — and on a rate-limit signal the pipeline
immediately degrades to database-only results (enrichment path) or raises
the rate-limit HTTP error (fallback path); it never blocks. -/
theorem enrichment_no_retry (pd : ExtractedData) (basic : AnalysisData)
    (eo eo' fo fo' : ℕ → CallResult) (he : eo 0 = eo' 0) (hf : fo 0 = fo' 0) :
    successAnalysisData pd basic eo fo = successAnalysisData pd basic eo' fo' ∧
      fallbackAnalysisData fo = fallbackAnalysisData fo' ∧
      (eo 0 = CallResult.rateLimited → ¬ pd.confidence < 3/10 →
        successAnalysisData pd basic eo fo =
          Except.ok (degradeData basic pd rateLimitNote)) ∧
      (fo 0 = CallResult.rateLimited →
        fallbackAnalysisData fo = Except.error (.http rateLimit429)) := by
  refine ⟨?_, ?_, ?_, ?_⟩
  · rw [successAnalysisData, successAnalysisData, he]
    unfold fallbackAnalysisData
    rw [hf]
  · rw [fallbackAnalysisData, fallbackAnalysisData, hf]
  · intro h1 h2
    rw [successAnalysisData, if_neg h2, h1]
  · intro h1
    rw [fallbackAnalysisData, h1]

/-- Witness for C2 at concrete inputs: an enricher that always rate-limits. -/
theorem enrichment_no_retry_witness :
    successAnalysisData c2extracted c2basic (fun _ => CallResult.rateLimited)
        (fun _ => CallResult.rateLimited) =
      Except.ok (degradeData c2basic c2extracted rateLimitNote) ∧
    fallbackAnalysisData (fun _ => CallResult.rateLimited) =
      Except.error (.http rateLimit429) :=
  ⟨(enrichment_no_retry c2extracted c2basic _ _ _ _ rfl rfl).2.2.1 rfl
      (by norm_num [c2extracted]),
   (enrichment_no_retry c2extracted c2basic
      (fun _ => CallResult.rateLimited) (fun _ => CallResult.rateLimited)
      (fun _ => CallResult.rateLimited) (fun _ => CallResult.rateLimited)
      rfl rfl).2.2.2 rfl⟩

/-- Counterexample to C4's "annotated with an explanatory note" clause at a
concrete input: with an enricher that always rate-limits, the request
returns a non-error result, but that result is byte-for-byte the one built
from the un-annotated analysis data — the note set on the internal dict
(analyze.py line 205) is not among the `ProductAnalysis` constructor
arguments (lines 237-249), so the returned result carries no annotation. -/
theorem rate_limit_degradation_counterexample :
    analyzeFresh "https://x"
        (some { url := "https://x", retailer := "Amazon", product_section_text := "",
                review_section_text := "", confidence := 9/10, has_reviews := false })
        c2extracted c2basic (fun _ => CallResult.rateLimited)
        (fun _ => CallResult.rateLimited) =
      RouteOutcome.ok
        (buildAnalysis "https://x"
          { degradeData c2basic c2extracted rateLimitNote with note := none }) := by
  rw [analyzeFresh, analyzeFreshData,
    if_pos (by norm_num [takesSuccessPath]), successAnalysisData,
    if_neg (by norm_num [c2extracted])]
  rfl

/-- C4 amended: if the scrape is accepted and extraction succeeds but the
enricher rate-limits, `Analyze` returns a non-error result whose detection
lists are exactly the deterministic database-matching output; the
explanatory note is recorded on the intermediate analysis data but is not
included in the returned result (the `ProductAnalysis` constructor call
does not pass it). -/
theorem rate_limit_degradation (url : String) (s : ScrapedProduct)
    (pd : ExtractedData) (basic : AnalysisData) (eo fo : ℕ → CallResult)
    (hs : 3/10 < s.confidence) (hpd : ¬ pd.confidence < 3/10)
    (he : eo 0 = CallResult.rateLimited) :
    analyzeFresh url (some s) pd basic eo fo =
        RouteOutcome.ok (buildAnalysis url (degradeData basic pd rateLimitNote)) ∧
      (buildAnalysis url (degradeData basic pd rateLimitNote)).allergens_detected =
        basic.allergens_detected ∧
      (buildAnalysis url (degradeData basic pd rateLimitNote)).pfas_detected =
        basic.pfas_detected ∧
      (buildAnalysis url (degradeData basic pd rateLimitNote)).other_concerns =
        basic.other_concerns ∧
      (degradeData basic pd rateLimitNote).note = some rateLimitNote ∧
      buildAnalysis url (degradeData basic pd rateLimitNote) =
        buildAnalysis url { degradeData basic pd rateLimitNote with note := none } := by
  refine ⟨?_, rfl, rfl, rfl, rfl, rfl⟩
  rw [analyzeFresh, analyzeFreshData,
    if_pos (by simp [takesSuccessPath, hs]), successAnalysisData,
    if_neg hpd, he]

/-- Witness for C4 at concrete inputs. -/
theorem rate_limit_degradation_witness :
    analyzeFresh "https://x"
        (some { url := "https://x", retailer := "Amazon", product_section_text := "",
                review_section_text := "", confidence := 9/10, has_reviews := false })
        c2extracted c2basic (fun n => if n = 0 then CallResult.rateLimited
          else CallResult.apiError "later")
        (fun _ => CallResult.apiError "unused") =
      RouteOutcome.ok
        (buildAnalysis "https://x" (degradeData c2basic c2extracted rateLimitNote)) :=
  (rate_limit_degradation "https://x" _ c2extracted c2basic _ _
      (by norm_num) (by norm_num [c2extracted]) rfl).1

/-- C9: every `AnalysisResult` the route produces satisfies
`overall_score = 100 - harm_score`.  Freshly computed results carry
`100 - calculate(analysis_data)` (analyze.py line 243); the stored row's
`harm_score` recovers exactly that harm score; a result rebuilt from any
cached row carries `100 - harm_score` of the row (the row has no
`overall_score` column, so line 84's `.get` always takes its default);
and the store/rebuild round trip preserves `overall_score`. -/
theorem overall_score_roundtrip (url urlHash : String) (a : AnalysisData)
    (r : StoredRecord) :
    (buildAnalysis url a).overall_score = 100 - calculate a ∧
      (storeAnalysis urlHash url (buildAnalysis url a)).harm_score = calculate a ∧
      (rebuildFromCache r).overall_score = 100 - r.harm_score ∧
      (rebuildFromCache (storeAnalysis urlHash url (buildAnalysis url a))).overall_score =
        (buildAnalysis url a).overall_score := by
  refine ⟨rfl, ?_, rfl, ?_⟩
  · simp [storeAnalysis, buildAnalysis]
  · simp [rebuildFromCache, storeAnalysis, buildAnalysis]

/-- C10: when the knowledge store is unavailable, `get_review_insights`
fails with HTTP 503 "Database unavailable..." regardless of the scrape or
extraction inputs (the result is the same for every `scraped`/`reviewData`,
so no scraping or extraction influences it) — a failure mode distinct from
the 404 returned when the store is available but holds no cached analysis
for the fingerprint. -/
theorem review_insights_db_unavailable (urlHash : String) (forceRefresh : Bool)
    (cachedReviews : Except String (Option ReviewInsights))
    (cachedAnalysis : Option StoredRecord) (scraped : Option ScrapedProduct)
    (rd : ReviewExtraction) :
    getReviewInsights urlHash forceRefresh false cachedReviews cachedAnalysis
        scraped rd =
      ReviewOutcome.httpError 503
        "Database unavailable. Cannot fetch reviews without URL." ∧
    getReviewInsights urlHash forceRefresh true
        (Except.error "db.get_cached_reviews raised") none scraped rd =
      ReviewOutcome.httpError 404 "Product not found. Analyze the product first." := by
  constructor
  · simp [getReviewInsights]
  · cases forceRefresh <;> simp [getReviewInsights]

end Ruh
